import Mathlib

/-!
Verification of the per-session conversation state machine and content
generation pipeline of the Telegram "Blogger post" bot (src/main.py).

The Python code is shallowly embedded:

* Python `str` values are Lean `String`s; the `str` primitives the handlers
  use (`strip`, `upper`, `lower`, `title`, `isdigit`, `split`, `startswith`,
  slicing, `join`, `replace`) are re-implemented below on `String.data`
  (`List Char`).  The embedding covers ASCII text: on ASCII strings each of
  these coincides with its Python counterpart (Python additionally knows
  Unicode digit classes, case foldings and spaces, which the inputs of
  interest never use; theorems whose truth depends on that restriction carry
  an explicit `asciiOnly` hypothesis).
* Python floats are embedded as `PyF`: an exact rational, or one of the
  special values `inf`, `-inf`, `nan`.  `pyFloat` embeds `float(text)` on
  such literals, `pyRound1` embeds `round(x, 1)` (ties to even), `fmt1`
  embeds the `:.1f` format.  Exact binary-double rounding noise (relevant
  only to decimal literals with ≥ 2 fractional digits sitting within one
  ulp of a tenth-tie) is outside the model.
* The mutable global dictionaries (`user_conversations`, `user_channels`,
  `user_ad_links`, `user_promo_config`) form a `Store`; each Telegram update
  handler becomes a function `… → Store → Store × List Act`, where `Act`
  records the transport side effects (replies, edits, photo/document sends).
* Network I/O (TMDB lookups, the image compositor's fetches, the two dpaste
  POSTs) is driven by an explicit environment `Env` carrying the outcome of
  each external call.
* The ghost field `Store.genCount` counts the invocations of the artifact
  generator suite (`generate_final_content`'s body); it changes nothing
  observable and exists to state the "generate exactly once" claims.
-/

/- Batteries marks the `Rat` arithmetic `@[irreducible]`, which blocks
`decide`'s evaluation of closed rating computations; the kernel re-checks
every proof and ignores reducibility, so restoring the default here is
sound. -/
set_option allowUnsafeReducibility true
attribute [local semireducible] Rat.mul Rat.add Rat.sub Rat.neg Rat.div Rat.inv Rat.normalize

namespace BloggerBot

/-! ## Python string primitives (ASCII fragment) -/

/-- The characters `str.strip()` removes (Python's ASCII whitespace). -/
def isPySpace (c : Char) : Bool :=
  c = ' ' ∨ c = '\t' ∨ c = '\n' ∨ c = '\x0d' ∨ c = '\x0b' ∨ c = '\x0c'

def pyStripL (l : List Char) : List Char :=
  ((l.dropWhile isPySpace).reverse.dropWhile isPySpace).reverse

/-- Python `s.strip()`. -/
def pyStrip (s : String) : String := ⟨pyStripL s.data⟩

/-- Python `s.upper()` (ASCII). -/
def pyUpper (s : String) : String := ⟨s.data.map Char.toUpper⟩

/-- Python `s.lower()` (ASCII). -/
def pyLower (s : String) : String := ⟨s.data.map Char.toLower⟩

/-- Python `s.isdigit()` (ASCII decimal digits). -/
def pyIsDigit (s : String) : Bool :=
  s.data ≠ [] ∧ s.data.all Char.isDigit

/-- Python `len(s)`. -/
def pyLen (s : String) : Nat := s.data.length

/-- Python `s[:n]`. -/
def pyTake (n : Nat) (s : String) : String := ⟨s.data.take n⟩

/-- Python `s.startswith(p)`. -/
def pyStarts (p s : String) : Bool := p.data.isPrefixOf s.data

/-- Python `s.replace(" ", "_")` as the HTML file name builder uses it. -/
def pyUnderscore (s : String) : String :=
  ⟨s.data.map (fun c => if c = ' ' then '_' else c)⟩

def pySplitAux (sep : Char) (acc : List Char) : List Char → List (List Char)
  | [] => [acc.reverse]
  | c :: r =>
    if c = sep then acc.reverse :: pySplitAux sep [] r
    else pySplitAux sep (c :: acc) r

/-- Python `s.split(sep)` for a one-character separator: every occurrence
splits, empty segments are kept, `"".split(sep) = [""]`. -/
def pySplit (sep : Char) (s : String) : List String :=
  (pySplitAux sep [] s.data).map (fun l => ⟨l⟩)

/-- Python `sep.join(xs)`. -/
def pyJoin (sep : String) : List String → String
  | [] => ""
  | [x] => x
  | x :: y :: r => x ++ sep ++ pyJoin sep (y :: r)

def pyTitleAux : Bool → List Char → List Char
  | _, [] => []
  | prev, c :: r =>
    (if c.isAlpha then (if prev then c.toLower else c.toUpper) else c)
      :: pyTitleAux c.isAlpha r

/-- Python `s.title()` (ASCII): first letter of every letter run uppercased,
the rest lowercased. -/
def pyTitle (s : String) : String := ⟨pyTitleAux false s.data⟩

/-- The string is pure ASCII: there the embedded primitives agree with
Python's Unicode-aware ones. -/
def asciiOnly (s : String) : Bool := s.data.all (fun c => c.toNat < 128)

/-- Python truthiness for an optional string: `None` and `""` are falsy. -/
def truthy : Option String → Option String
  | some s => if s = "" then none else some s
  | none => none

/-- Python `a or b` over two optional strings: `b` itself (truthy or not)
when `a` is falsy. -/
def pyOr2 (a b : Option String) : Option String :=
  match truthy a with
  | some s => some s
  | none => b

/-- Python `a or b or d` with a truthy string literal default `d`. -/
def pyOrD (a b : Option String) (d : String) : String :=
  (truthy (pyOr2 a b)).getD d

/-- Python `f"{x}"` on an optional string: `None` prints as `"None"`. -/
def pyShow (o : Option String) : String := o.getD "None"

/-! ## Python floats on decimal literals -/

/-- A Python float as the rating pipeline observes it: an exact rational or
one of the special values. -/
inductive PyF where
  | fin (q : ℚ)
  | inf
  | ninf
  | nan
deriving DecidableEq, Repr

/-- A character a digit run may contain: a digit or a group underscore. -/
def isRunChar (c : Char) : Bool := c.isDigit || c = '_'

/-- After a leading digit, the rest of a valid run: underscores only single
and followed by a digit. -/
def runTailOk : List Char → Bool
  | [] => true
  | '_' :: [] => false
  | '_' :: '_' :: _ => false
  | '_' :: _ :: r2 => runTailOk r2
  | _ :: r => runTailOk r

/-- A digit run as Python's float grammar reads it: digits with single
underscores allowed only between two digits.  Returns the digits (the
underscores dropped) and the unconsumed rest; `none` when the run is
malformed (a leading, trailing or doubled underscore), which fails the
whole `float()` call. -/
def digRun (l : List Char) : Option (List Char × List Char) :=
  let run := l.takeWhile isRunChar
  let rest := l.dropWhile isRunChar
  match run with
  | [] => some ([], rest)
  | c :: r =>
    if c = '_' then none
    else if runTailOk r then some (run.filter Char.isDigit, rest) else none

def digitsVal (l : List Char) : Nat :=
  l.foldl (fun a c => a * 10 + (c.toNat - 48)) 0

/-- Leading `+`/`-`; `true` means negative. -/
def parseSign : List Char → Bool × List Char
  | '+' :: r => (false, r)
  | '-' :: r => (true, r)
  | l => (false, l)

def pyFloatAux (l : List Char) : Option PyF :=
  let sg := parseSign l
  let body := sg.2
  let low := body.map Char.toLower
  if low = "inf".data ∨ low = "infinity".data then
    some (if sg.1 then .ninf else .inf)
  else if low = "nan".data then some .nan
  else
    match digRun body with
    | none => none
    | some (ip, r1) =>
      match (match r1 with
             | '.' :: rr => digRun rr
             | _ => some (([] : List Char), r1)) with
      | none => none
      | some (fp, r2) =>
        if ip = [] ∧ fp = [] then none
        else
          let mant : ℚ :=
            ((digitsVal ip * 10 ^ fp.length + digitsVal fp : ℕ) : ℚ)
              / ((10 ^ fp.length : ℕ) : ℚ)
          let signed : ℚ := if sg.1 then -mant else mant
          match r2 with
          | [] => some (.fin signed)
          | c :: rr =>
            if c = 'e' ∨ c = 'E' then
              let es := parseSign rr
              match digRun es.2 with
              | none => none
              | some (ed, r3) =>
                if ed = [] ∨ r3 ≠ [] then none
                else
                  let e : ℤ := if es.1 then -(digitsVal ed : ℤ) else (digitsVal ed : ℤ)
                  some (.fin (signed * (10 : ℚ) ^ e))
            else none

/-- Python `float(text)`: optional surrounding whitespace and sign, then a
decimal literal (digit runs with underscores, optional fraction and
exponent) or a case-insensitive `inf`/`infinity`/`nan`; `none` embeds the
`ValueError` raise. -/
def pyFloat (s : String) : Option PyF := pyFloatAux (pyStripL s.data)

/-- Round to the nearest integer, ties to even (Python's rounding mode).
`Int.fdiv num den` is the floor of the rational (`den` is positive). -/
def roundTE (q : ℚ) : ℤ :=
  let f := Int.fdiv q.num (q.den : ℤ)
  let r := q - (f : ℚ)
  if r < 1/2 then f
  else if 1/2 < r then f + 1
  else if f % 2 = 0 then f else f + 1

/-- Python `round(x, 1)` on a float. -/
def pyRound1 : PyF → PyF
  | .fin q => .fin ((roundTE (q * 10) : ℚ) / 10)
  | x => x

/-- Python `f"{x:.1f}"`. -/
def fmt1 : PyF → String
  | .fin q =>
    let n := roundTE (q * 10)
    if n < 0 then
      "-" ++ toString ((-n).toNat / 10) ++ "." ++ toString ((-n).toNat % 10)
    else
      toString (n.toNat / 10) ++ "." ++ toString (n.toNat % 10)
  | .inf => "inf"
  | .ninf => "-inf"
  | .nan => "nan"

/-! ## Data model

`Details` embeds the `details` dict a session carries: the normalized TMDB
payload (or the manually entered fields).  `none` on an optional field
models an absent key; list fields model `data.get(k, [])`.  TMDB cast
entries always carry a `name` (the code indexes `actor["name"]`), so
`CastMember.name` is a plain string. -/

structure CastMember where
  name : String
  profile_path : Option String := none
deriving DecidableEq, Repr

structure SimilarItem where
  title : Option String := none
  name : Option String := none
deriving DecidableEq, Repr

structure Details where
  title : Option String := none
  name : Option String := none
  release_date : Option String := none
  first_air_date : Option String := none
  runtime : Option Nat := none
  vote_average : Option PyF := none
  genres : List String := []
  credits_cast : List CastMember := []
  similar_results : List SimilarItem := []
  overview : Option String := none
  custom_language : Option String := none
  custom_quality : Option String := none
  manual_poster_url : Option String := none
  poster_path : Option String := none
  backdrop_path : Option String := none
deriving DecidableEq, Repr

/-- A collected download link: `{"label": …, "url": …}`. -/
structure DownloadLink where
  label : String
  url : String
deriving DecidableEq, Repr

/-! ## Caption generator (`generate_formatted_caption`) -/

/-- `runtime_str`: the walrus `if runtime_minutes := data.get("runtime")`
is truthy only for a present, non-zero runtime. -/
def runtimeStr (d : Details) : String :=
  match d.runtime with
  | some rt =>
    if rt ≠ 0 then
      if rt / 60 > 0 then
        toString (rt / 60) ++ "h " ++ toString (rt % 60) ++ "m"
      else toString (rt % 60) ++ "m"
    else "N/A"
  | none => "N/A"

/-- `generate_formatted_caption(data)` (src/main.py lines 240-274). -/
def generate_formatted_caption (d : Details) : String :=
  let title := pyOrD d.title d.name "N/A"
  let year := pyTake 4 (pyOrD d.release_date d.first_air_date "----")
  let runtime_str := runtimeStr d
  let rating := "⭐ " ++ fmt1 (d.vote_average.getD (.fin 0)) ++ "/10"
  let genres := pyJoin ", " (if d.genres = [] then ["N/A"] else d.genres)
  let castNames := (d.credits_cast.take 5).map (fun a => a.name)
  let cast := pyJoin ", " (if castNames = [] then ["N/A"] else castNames)
  let language := pyTitle (d.custom_language.getD "")
  let overview := d.overview.getD "No plot summary available."
  let similar_movies_list :=
    (d.similar_results.take 4).map (fun m => "» " ++ pyShow (pyOr2 m.title m.name))
  let c1 := "🎬 **" ++ title ++ " (" ++ year ++ ")**\n\n"
  let c2 :=
    if language ≠ "" then
      "**🎭 Genres:** " ++ genres ++ "\n**🗣️ Language:** " ++ language ++
        "\n**⏳ Runtime:** " ++ runtime_str ++ "\n**⭐ Rating:** " ++ rating ++ "\n\n"
    else
      "**🎭 Genres:** " ++ genres ++ "\n**⏳ Runtime:** " ++ runtime_str ++
        " | **⭐ Rating:** " ++ rating ++ "\n\n"
  let c3 := if cast ≠ "N/A" then "**👥 Cast:** _" ++ cast ++ "_\n\n" else ""
  let c4 := "**📝 Plot:** _" ++ pyTake 400 overview ++
    (if pyLen overview > 400 then "..." else "") ++ "_"
  let c5 :=
    if similar_movies_list ≠ [] then
      "\n\n**💡 You Might Also Like:**\n" ++ pyJoin "\n" similar_movies_list
    else ""
  c1 ++ c2 ++ c3 ++ c4 ++ c5

/-! ## HTML generator (`generate_html`)

Literal braces of the CSS/JS template are written as the escapes
`\x7b`/`\x7d`; everything else is transcribed verbatim from the
`final_html` f-string (Python's `{{`/`}}` denote one literal brace). -/

def pyInL (sub : List Char) : List Char → Bool
  | [] => sub.isPrefixOf ([] : List Char)
  | c :: r => sub.isPrefixOf (c :: r) || pyInL sub r

/-- Python `sub in s` (substring containment). -/
def pyIn (sub s : String) : Bool := pyInL sub.data s.data

def TIMER_SECONDS : Nat := 10

def INITIAL_DOWNLOADS : Nat := 1493

def TELEGRAM_LINK : String := "https://t.me/YourChannelLink"

def DEFAULT_AD_LINK : String := "https://www.google.com"

/-- The gradient picked from the label text (lines 315-328). -/
def dlGradient (label : String) : String :=
  let label_lower := pyLower label
  if pyIn "1080" label_lower ∨ pyIn "4k" label_lower then
    "linear-gradient(135deg, #FF416C 0%, #FF4B2B 100%)"
  else if pyIn "720" label_lower then
    "linear-gradient(135deg, #00B4DB 0%, #0083B0 100%)"
  else if pyIn "480" label_lower then
    "linear-gradient(135deg, #11998e 0%, #38ef7d 100%)"
  else
    "linear-gradient(135deg, #667eea 0%, #764ba2 100%)"

/-- One download block of the loop body (lines 330-343): the button carries
the link's own url and label as data attributes and shows its label. -/
def dlBlock (link : DownloadLink) : String :=
  "
        <div class=\"dl-download-block\">
            <div class=\"dl-info-badge\">🚀 Fast Speed</div>
            <button class=\"dl-download-button\" style=\"background: " ++ dlGradient link.label ++ ";\" data-url=\"" ++ link.url ++ "\" data-label=\"" ++ link.label ++ "\" data-click-count=\"0\">
                <span class=\"btn-icon\">📥</span>\x20
                <span class=\"btn-text\">" ++ link.label ++ "</span>
                <span class=\"btn-sub\">Click to Download</span>
            </button>
            <div class=\"dl-timer-display\">⏳ Please Wait...</div>
            <a href=\"#\" class=\"dl-real-download-link\" target=\"_blank\" rel=\"noopener noreferrer\">
                🚀 GET LINK NOW
            </a>
        </div>
        "

/-- `download_blocks_html`: the `+=` loop over `links` (lines 313-343). -/
def download_blocks_html (links : List DownloadLink) : String :=
  links.foldl (fun acc link => acc ++ dlBlock link) ""

/-- One cast member card of the star-cast loop (lines 300-309). -/
def castMemberHtml (m : CastMember) : String :=
  let member_image_url :=
    match truthy m.profile_path with
    | some p => "https://image.tmdb.org/t/p/w185" ++ p
    | none => "https://via.placeholder.com/185x278.png?text=No+Image"
  "
            <div class=\"cast-member\">
                <div class=\"img-wrapper\"><img src=\"" ++ member_image_url ++ "\" alt=\"" ++ m.name ++ "\"></div>
                <p class=\"cast-name\">" ++ m.name ++ "</p>
            </div>
            "

/-- `cast_html` (lines 295-310). -/
def castHtmlOf (cast_members : List CastMember) : String :=
  if cast_members = [] then ""
  else
    "<h3 style=\"text-align:center; font-family: Poppins, sans-serif; color: #333; margin-top: 30px;\">🎭 Star Cast 🎭</h3>" ++
    "<div class=\"cast-container\">" ++
    (cast_members.take 8).foldl (fun acc m => acc ++ castMemberHtml m) "" ++
    "</div>"

/-- `poster_url` selection (lines 287-292). -/
def posterUrl (d : Details) : String :=
  match truthy d.manual_poster_url with
  | some u => u
  | none =>
    match truthy d.poster_path with
    | some p => "https://image.tmdb.org/t/p/w500" ++ p
    | none => "https://via.placeholder.com/400x600.png?text=No+Poster"

/-- `generate_html(data, links, user_id)` (lines 277-555).  The global
`user_ad_links` dict is passed explicitly. -/
def generate_html (d : Details) (links : List DownloadLink) (user_id : Nat)
    (user_ad_links : Nat → Option String) : String :=
  let ad_link := (user_ad_links user_id).getD DEFAULT_AD_LINK
  let title := pyOrD d.title d.name "N/A"
  let year := pyTake 4 (pyOrD d.release_date d.first_air_date "----")
  let language := pyTitle (d.custom_language.getD "")
  let overview := d.overview.getD "No overview available."
  let poster_url := posterUrl d
  let castH := castHtmlOf d.credits_cast
  let blocks := download_blocks_html links
  "
<!-- Bot Generated Content Starts -->
<link href=\"https://fonts.googleapis.com/css2?family=Poppins:wght@400;600;700&display=swap\" rel=\"stylesheet\">
<div style=\"font-family: 'Poppins', sans-serif; max-width: 600px; margin: auto;\">
\x20\x20\x20\x20
    <div style=\"text-align: center; background: #fff; padding: 20px; border-radius: 15px; box-shadow: 0 10px 25px rgba(0,0,0,0.05);\">
        <img src=\"" ++ poster_url ++ "\" alt=\"" ++ title ++ " Poster\" style=\"width: 100%; max-width: 250px; border-radius: 12px; box-shadow: 0 5px 15px rgba(0,0,0,0.2);\">
        <h2 style=\"color: #2c3e50; margin-top: 15px; font-size: 24px;\">" ++ title ++ " (" ++ year ++ ")</h2>
        <div style=\"display: inline-block; background: #eee; padding: 5px 15px; border-radius: 20px; font-size: 14px; font-weight: 600; color: #555; margin-bottom: 10px;\">
            " ++ language ++ "
        </div>
        <p style=\"text-align: justify; color: #555; font-size: 15px; line-height: 1.6;\">" ++ overview ++ "</p>
    </div>

    <!--more-->
\x20\x20\x20\x20
    " ++ castH ++ "

    <div class=\"dl-body\">
        <style>
            .dl-body \x7b font-family: 'Poppins', sans-serif; margin-top: 30px; \x7d
\x20\x20\x20\x20\x20\x20\x20\x20\x20\x20\x20\x20
            /* Cast Styles */
            .cast-container \x7b display: flex; flex-wrap: wrap; justify-content: center; gap: 15px; padding: 10px; \x7d
            .cast-member \x7b text-align: center; width: 90px; \x7d
            .img-wrapper \x7b width: 80px; height: 80px; border-radius: 50%; overflow: hidden; margin: 0 auto; border: 3px solid #fff; box-shadow: 0 5px 15px rgba(0,0,0,0.1); transition: transform 0.3s; \x7d
            .cast-member:hover .img-wrapper \x7b transform: scale(1.1); \x7d
            .cast-photo \x7b width: 100%; height: 100%; object-fit: cover; \x7d
            .cast-name \x7b font-size: 12px; font-weight: 600; color: #444; margin-top: 8px; line-height: 1.2; \x7d

            /* Download Section Styles */
            .dl-post-container \x7b\x20
                background: #ffffff;\x20
                padding: 25px;\x20
                border-radius: 25px;\x20
                box-shadow: 0 20px 40px rgba(0, 0, 0, 0.08);\x20
                border: 1px solid #f0f0f0;\x20
                position: relative;
                overflow: hidden;
            \x7d
\x20\x20\x20\x20\x20\x20\x20\x20\x20\x20\x20\x20
            .dl-instruction-box \x7b\x20
                background: linear-gradient(to right, #fffbe6, #fff);\x20
                border-left: 5px solid #ffe58f;\x20
                color: #444;\x20
                padding: 15px;\x20
                border-radius: 8px;\x20
                margin-bottom: 30px;\x20
                text-align: left;
                font-size: 14px;
            \x7d
            .dl-instruction-box h2 \x7b margin: 0 0 5px 0; font-size: 18px; color: #d48806; \x7d

            .dl-download-block \x7b\x20
                position: relative;
                margin-bottom: 25px;\x20
                padding: 5px;
            \x7d

            .dl-info-badge \x7b
                position: absolute;
                top: -10px;
                right: 10px;
                background: #ff4757;
                color: white;
                font-size: 10px;
                padding: 2px 8px;
                border-radius: 10px;
                font-weight: bold;
                z-index: 2;
                box-shadow: 0 2px 5px rgba(0,0,0,0.2);
            \x7d

            .dl-download-button, .dl-real-download-link \x7b\x20
                display: flex;\x20
                flex-direction: column;\x20
                align-items: center;\x20
                justify-content: center;
                width: 100%;\x20
                padding: 18px 15px;\x20
                text-align: center;\x20
                border-radius: 15px;\x20
                cursor: pointer;\x20
                text-decoration: none;\x20
                transition: all 0.3s ease;\x20
                box-sizing: border-box;\x20
                border: none;
                color: white !important;
                box-shadow: 0 10px 20px rgba(0,0,0,0.15);
                position: relative;
                overflow: hidden;
            \x7d

            .dl-download-button:hover \x7b\x20
                transform: translateY(-5px);\x20
                box-shadow: 0 15px 30px rgba(0,0,0,0.25);\x20
                filter: brightness(1.1);
            \x7d

            .btn-text \x7b font-size: 18px; font-weight: 800; text-transform: uppercase; letter-spacing: 1px; \x7d
            .btn-sub \x7b font-size: 12px; opacity: 0.9; margin-top: 2px; font-weight: 400; \x7d
            .btn-icon \x7b font-size: 24px; margin-bottom: 5px; \x7d

            .dl-real-download-link \x7b\x20
                background: linear-gradient(135deg, #11998e 0%, #38ef7d 100%);\x20
                display: none;\x20
                font-size: 20px;
                font-weight: bold;
            \x7d

            .dl-timer-display \x7b\x20
                margin-top: 0;\x20
                font-size: 16px;\x20
                font-weight: bold;\x20
                color: #333;\x20
                background: #f8f9fa;\x20
                padding: 15px;\x20
                border-radius: 12px;\x20
                text-align: center;\x20
                display: none;\x20
                border: 2px dashed #ddd;
            \x7d
\x20\x20\x20\x20\x20\x20\x20\x20\x20\x20\x20\x20
            .dl-telegram-link \x7b
                display: block;
                background: #0088cc;
                color: white !important;
                text-align: center;
                padding: 15px;
                border-radius: 50px;
                text-decoration: none;
                font-weight: bold;
                margin-top: 30px;
                box-shadow: 0 5px 15px rgba(0, 136, 204, 0.4);
                transition: 0.3s;
            \x7d
            .dl-telegram-link:hover \x7b transform: scale(1.02); \x7d

        </style>

        <div class=\"dl-post-container\">
            <div class=\"dl-instruction-box\">
                <h2>⚡ ডাউনলোড করার নি\u09dfম:</h2>
                1. ডাউনলোড বাটনে ক্লিক করুন।<br>
                2. ১০ সেকেন্ড অপেক্ষা করুন।<br>
                3. \"Get Link\" বাটন আসলে ডাউনলোড শুরু হবে।
            </div>

            " ++ blocks ++ "

            <div style=\"text-align: center; margin-top: 25px; color: #888; font-size: 14px;\">
                ✅ Total Downloads: <b style=\"color: #333;\"><span id=\"download-counter\">" ++ toString INITIAL_DOWNLOADS ++ "</span>+</b>
            </div>

            <a class=\"dl-telegram-link\" href=\"" ++ TELEGRAM_LINK ++ "\" target=\"_blank\">
                💌 Join Our Telegram Channel
            </a>
        </div>
    </div>

    <script>
    document.addEventListener('DOMContentLoaded', function() \x7b
        const AD_LINK = \"" ++ ad_link ++ "\";
        const TIMER_SECONDS = " ++ toString TIMER_SECONDS ++ ";
\x20\x20\x20\x20\x20\x20\x20\x20
        document.querySelectorAll('.dl-download-button').forEach(button => \x7b
            button.onclick = () => \x7b
                let clickCount = parseInt(button.dataset.clickCount);
                const block = button.parentElement;
                const timerDisplay = block.querySelector('.dl-timer-display');
                const realDownloadLink = block.querySelector('.dl-real-download-link');
                const downloadUrl = button.dataset.url;
\x20\x20\x20\x20\x20\x20\x20\x20\x20\x20\x20\x20\x20\x20\x20\x20
                if (clickCount === 0) \x7b
                    window.open(AD_LINK, \"_blank\");
                    button.querySelector('.btn-text').innerText = \"↻ Click Again to Start\";
                    button.querySelector('.btn-sub').innerText = \"Verification Complete\";
                    button.style.background = \"linear-gradient(135deg, #333 0%, #555 100%)\"; // Change color to grey
                    button.dataset.clickCount = 1;
                \x7d else if (clickCount === 1) \x7b
                    button.style.display = 'none';
                    timerDisplay.style.display = 'block';
                    timerDisplay.innerHTML = `<div style=\"font-size:24px;\">⏳</div> Generating Link: $\x7bTIMER_SECONDS\x7ds`;
\x20\x20\x20\x20\x20\x20\x20\x20\x20\x20\x20\x20\x20\x20\x20\x20\x20\x20\x20\x20
                    realDownloadLink.href = downloadUrl;
                    let timeLeft = TIMER_SECONDS;
\x20\x20\x20\x20\x20\x20\x20\x20\x20\x20\x20\x20\x20\x20\x20\x20\x20\x20\x20\x20
                    const timer = setInterval(() => \x7b
                        timeLeft--;
                        timerDisplay.innerHTML = `<div style=\"font-size:24px;\">⏳</div> Generating Link: $\x7btimeLeft\x7ds`;
\x20\x20\x20\x20\x20\x20\x20\x20\x20\x20\x20\x20\x20\x20\x20\x20\x20\x20\x20\x20\x20\x20\x20\x20
                        if (timeLeft <= 0) \x7b
                            clearInterval(timer);
                            timerDisplay.style.display = 'none';
                            realDownloadLink.style.display = 'flex';\x20
\x20\x20\x20\x20\x20\x20\x20\x20\x20\x20\x20\x20\x20\x20\x20\x20\x20\x20\x20\x20\x20\x20\x20\x20\x20\x20\x20\x20
                            // Fake counter increment
                            const counter = document.getElementById('download-counter');
                            if(counter) \x7b counter.innerText = parseInt(counter.innerText) + 1; \x7d
                        \x7d
                    \x7d, 1000);
                    button.dataset.clickCount = 2;
                \x7d
            \x7d;
        \x7d);
    \x7d);
    </script>
</div>
<!-- Bot Generated Content Ends -->
"

/-- `generate_filedl_html(title, links_list)` (lines 557-593). -/
def generate_filedl_html (title : String) (links_list : List DownloadLink) : String :=
  let css := "
    <style>
        .fdl-container \x7b font-family: 'Segoe UI', sans-serif; text-align: center; max-width: 600px; margin: 0 auto; padding: 20px; background: #fff; \x7d
        .fdl-title \x7b font-size: 20px; font-weight: 600; margin-bottom: 25px; color: #333; line-height: 1.4; \x7d
        .fdl-btn-container \x7b display: flex; flex-wrap: wrap; justify-content: center; gap: 10px; margin-bottom: 20px; \x7d
        .fdl-btn \x7b
            display: inline-block; padding: 12px 15px; border-radius: 4px; text-decoration: none;
            color: white !important; font-weight: 500; font-size: 14px; flex: 1 1 45%;\x20
            background-color: #007bff;
            box-shadow: 0 2px 4px rgba(0,0,0,0.1); transition: 0.2s; text-align: center; border: none; margin-bottom: 5px;
        \x7d
        .fdl-btn:hover \x7b opacity: 0.9; transform: translateY(-1px); background-color: #0056b3; \x7d
        .fdl-footer \x7b font-size: 13px; color: #666; margin-top: 20px; line-height: 1.5; border-top: 1px solid #eee; padding-top: 15px;\x7d
    </style>
    "
  let buttons_html := links_list.foldl
    (fun acc link_data =>
      acc ++ "<a href=\"" ++ link_data.url ++ "\" class=\"fdl-btn\" target=\"_blank\">" ++ link_data.label ++ "</a>\n")
    ""
  "
    " ++ css ++ "
    <div class=\"fdl-container\">
        <div class=\"fdl-title\">" ++ title ++ "</div>
        <div class=\"fdl-btn-container\">
            " ++ buttons_html ++ "
        </div>
        <div class=\"fdl-footer\">
            Thank you for using our site — enjoy ultra-fast downloads Speed.<br>
            If one server is busy or slow, simply switch to another with one click for Fast speed :)
        </div>
    </div>
    "

/-! ## Paste upload (`create_paste_link`) -/

/-- The outcome of one `requests.post` to dpaste: a completed response, a
timeout (which `requests` raises as an exception), or any other raised
exception. -/
inductive PostOutcome where
  | resp (status : Nat) (text : String)
  | timeout
  | exc
deriving DecidableEq, Repr

/-- `create_paste_link(content)` (lines 98-150).  `httpsO` is the outcome of
the `https://dpaste.com/api/` POST, `httpO` of the `http://` POST; the
latter is reached only inside the former's `except` handler, which catches
every `Exception` (timeouts included).  A completed response with a status
other than 200/201 falls through to the final `return None` without any
retry.  The function catches everything: it never raises. -/
def create_paste_link (content : String) (httpsO httpO : PostOutcome) : Option String :=
  if content = "" then none
  else
    match httpsO with
    | .resp status text =>
      if status = 201 ∨ status = 200 then some (pyStrip text) else none
    | _ =>
      match httpO with
      | .resp status text =>
        if status = 201 ∨ status = 200 then some (pyStrip text) else none
      | _ => none

/-! ## Sessions, store, transport actions -/

/-- The cached generator output, `convo["generated"]`.  The compositor's PNG
buffer is an opaque token; `none` records that `generate_image` returned
`None`. -/
structure Bundle where
  caption : String
  html : String
  image : Option Nat
deriving DecidableEq, Repr

/-- One `user_conversations[uid]` dict.  The selection/manual flow uses
`state`, `details`, `links`, `current_label`, `generated`; the `/filedl`
flow keeps its nested `data` dict as `data_title`/`data_links` alongside
`temp_btn_name`.  A default value models an absent key. -/
structure Convo where
  state : String := ""
  details : Details := {}
  links : List DownloadLink := []
  current_label : Option String := none
  generated : Option Bundle := none
  data_title : Option String := none
  data_links : List DownloadLink := []
  temp_btn_name : Option String := none
deriving DecidableEq, Repr

/-- `user_promo_config[uid]`. -/
structure Promo where
  channel : Option String := none
  name : Option String := none
  watch_link : Option String := none
  download_link : Option String := none
  request_link : Option String := none
deriving DecidableEq, Repr

/-- The four process-wide dicts, plus the ghost counter `genCount`: the
number of completed runs of `generate_final_content`'s generator suite.
It has no observable effect and exists only to state "generated exactly
once" properties. -/
structure Store where
  sessions : Nat → Option Convo
  channels : Nat → Option String := fun _ => none
  adLinks : Nat → Option String := fun _ => none
  promo : Nat → Option Promo := fun _ => none
  genCount : Nat := 0

def updateSess (f : Nat → Option Convo) (uid : Nat) (v : Option Convo) :
    Nat → Option Convo :=
  fun k => if k = uid then v else f k

/-- A photo argument to the transport: a URL or a PNG buffer token. -/
inductive PhotoSrc where
  | url (u : String)
  | buf (b : Nat)
deriving DecidableEq, Repr

/-- Transport side effects, in emission order.  Buttons are recorded by
their callback data or target URL.  `alert`/`toast` are `cb.answer` with
and without `show_alert`. -/
inductive Act where
  | alert (msg : String)
  | toast (msg : String)
  | editText (msg : String)
  | editMarkupClear
  | deleteMsg
  | reply (msg : String)
  | replyKb (msg : String) (buttons : List String)
  | sendText (msg : String)
  | sendKb (msg : String) (buttons : List String)
  | sendPhotoKb (photo : PhotoSrc) (caption : String) (buttons : List String)
  | sendDoc (content : String) (fname : String) (caption : String)
  | channelPhoto (channel : String) (photo : PhotoSrc) (caption : String) (buttons : List String)
  | channelText (channel : String) (caption : String) (buttons : List String)
deriving DecidableEq, Repr

/-- Outcomes of the external calls one update may perform. -/
structure Env where
  details_of : String → Nat → Option Details := fun _ _ => none
  image : Option Nat := none
  https : PostOutcome := .exc
  http : PostOutcome := .exc

/-- `generate_image(data)` (lines 595-655): with neither a manual poster URL
nor a TMDB poster path the code returns `None` before any I/O; otherwise
the composited buffer (or `None` on any failure) comes from the
environment. -/
def generate_image (d : Details) (env : Env) : Option Nat :=
  if truthy d.manual_poster_url = none ∧ truthy d.poster_path = none then none
  else env.image

/-! ## Automated channel post (`send_channel_post`, lines 1159-1221)

The transport sends are modeled on their success path (the surrounding
`try/except` only swaps the confirmation message). -/

def send_channel_post (convo : Convo) (promoCfg : Option Promo) : List Act :=
  match promoCfg with
  | none => [.sendText "⚠️ **Auto-Post Skipped:** No channel configured. Use `/setpromochannel`."]
  | some cfg =>
    match truthy cfg.channel with
    | none => [.sendText "⚠️ **Auto-Post Skipped:** No channel configured. Use `/setpromochannel`."]
    | some channel_id =>
      if cfg.name = none ∨ cfg.watch_link = none ∨ cfg.download_link = none ∨
          cfg.request_link = none then
        [.sendText "❌ **Auto-Post Failed:** Config incomplete."]
      else
        let d := convo.details
        let title := pyOrD d.title d.name "N/A"
        let year := pyTake 4 (pyOrD d.release_date d.first_air_date "----")
        let language := d.custom_language.getD "N/A"
        let quality := d.custom_quality.getD "N/A"
        let rating := "⭐ " ++ fmt1 (d.vote_average.getD (.fin 0)) ++ "/10"
        let runtime_str := runtimeStr d
        let photo : Option PhotoSrc :=
          match truthy d.manual_poster_url with
          | some u => some (.url u)
          | none =>
            match truthy d.poster_path with
            | some p => some (.url ("https://image.tmdb.org/t/p/original" ++ p))
            | none => (convo.generated.bind (fun g => g.image)).map .buf
        let caption :=
          "🎬 **" ++ title ++ " (" ++ year ++ ")**\n\n**🎭 Genres:** " ++
          pyJoin ", " (if d.genres = [] then ["N/A"] else d.genres) ++
          "\n**🗣️ Language:** " ++ language ++ "\n**💿 Quality:** " ++ quality ++
          "\n**⏳ Runtime:** " ++ runtime_str ++ "\n**⭐ Rating:** " ++ rating ++
          "\n⎯⎯⎯⎯⎯⎯⎯⎯⎯⎯⎯⎯⎯⎯⎯⎯\n👇 Click Below to Watch or Download on " ++
          cfg.name.getD "" ++ "! 👇"
        let buttons := [cfg.watch_link.getD "", cfg.download_link.getD "", cfg.request_link.getD ""]
        (match photo with
         | some p => [Act.channelPhoto channel_id p caption buttons]
         | none => [Act.channelText channel_id caption buttons]) ++
        [.sendText ("✅ Auto-post sent to `" ++ channel_id ++ "`!")]

/-! ## Final content generation (`generate_final_content`, lines 1225-1256) -/

def generate_final_content (env : Env) (user_id : Nat) (s : Store) : Store × List Act :=
  match s.sessions user_id with
  | none => (s, [])
  | some convo =>
    let caption := generate_formatted_caption convo.details
    let html_code := generate_html convo.details convo.links user_id s.adLinks
    let image_file := generate_image convo.details env
    let convo2 : Convo :=
      { convo with generated := some ⟨caption, html_code, image_file⟩, state := "done" }
    let s2 : Store :=
      { s with sessions := updateSess s.sessions user_id (some convo2),
               genCount := s.genCount + 1 }
    let buttons := ["get_html_" ++ toString user_id, "get_caption_" ++ toString user_id] ++
      (match s.channels user_id with
       | some _ => ["post_channel_" ++ toString user_id]
       | none => [])
    let sendActs :=
      match image_file with
      | some img => [Act.sendPhotoKb (.buf img) caption buttons]
      | none => [Act.sendKb ("⚠️ **Image could not be generated.**\n\n" ++ caption) buttons]
    (s2,
     [Act.editText "⏳ Generating main post for you...",
      Act.editText "🎨 Generating image...",
      Act.deleteMsg] ++ sendActs ++
     [Act.sendText "⏳ Sending automatic post to channel..."] ++
     send_channel_post convo2 (s.promo user_id))

/-! ## Button-click handlers -/

/-- A button-click update as the three callback handlers parse the payload:
`sel_{type}_{id}` carries no owner; `addlink_yes_{uid}`/`addlink_no_{uid}`
and `{action}_{uid}` (`action` matching `^(get_|post_)`) carry the
session-owner id in the last underscore field. -/
inductive CbEvent where
  | sel (clicker : Nat) (media_type : String) (media_id : Nat)
  | addlink (clicker : Nat) (yes : Bool) (owner : Nat)
  | finalAct (clicker : Nat) (action : String) (owner : Nat)
deriving DecidableEq, Repr

def CbEvent.clicker : CbEvent → Nat
  | .sel c _ _ => c
  | .addlink c _ _ => c
  | .finalAct c _ _ => c

/-- The session-owner id encoded in the callback payload (`none` when the
payload carries none, as for `sel_`). -/
def CbEvent.encodedOwner : CbEvent → Option Nat
  | .sel _ _ _ => none
  | .addlink _ _ o => some o
  | .finalAct _ _ o => some o

/-- `selection_callback` (lines 1007-1032): writes the clicking user's own
session. -/
def selection_callback (env : Env) (clicker : Nat) (media_type : String)
    (media_id : Nat) (s : Store) : Store × List Act :=
  match env.details_of media_type media_id with
  | none => (s, [.editText "⏳ Fetching details...", .editText "❌ Error fetching details."])
  | some details =>
    ({ s with sessions := (updateSess s.sessions clicker
        (some { state := "wait_custom_language", details := details, links := [] })) },
     [.editText "⏳ Fetching details...",
      .editText ("✅ **Selected:** " ++ pyShow (pyOr2 details.title details.name) ++
        "\n\n**🗣️ Please enter the Language** (e.g., `Hindi Dubbed`).")])

/-- `add_link_callback` (lines 1074-1086). -/
def add_link_callback (env : Env) (clicker : Nat) (yes : Bool) (owner : Nat)
    (s : Store) : Store × List Act :=
  if clicker ≠ owner then (s, [.alert "This is not for you!"])
  else
    match s.sessions owner with
    | none => (s, [.alert "Session expired."])
    | some convo =>
      if yes then
        ({ s with sessions := (updateSess s.sessions owner
            (some { convo with state := "wait_link_label" })) },
         [.editText "**🔗 Step 1/2: Link Label**\n\nExample: `Download 720p`"])
      else
        let r := generate_final_content env owner s
        (r.1, Act.editText "✅ No links will be added. Generating final content..." :: r.2)

/-- `final_action_callback` (lines 1258-1308).  The channel sends are modeled
on their success path. -/
def final_action_callback (env : Env) (clicker : Nat) (action : String)
    (owner : Nat) (s : Store) : Store × List Act :=
  if clicker ≠ owner then (s, [.alert "This is not for you!"])
  else
    match s.sessions owner with
    | none => (s, [.alert "Session expired. Please start over."])
    | some convo =>
      match convo.generated with
      | none => (s, [.alert "Session expired. Please start over."])
      | some generated =>
        if action = "get_html" then
          let html_code := generated.html
          match create_paste_link html_code env.https env.http with
          | some link =>
            (s, [.toast "🔗 Creating link (NekoBin/Hastebin)...",
                 .replyKb "✅ **Blogger Code Ready!**\n\n👇 Click below to View & Copy the code." [link]])
          | none =>
            (s, [.toast "🔗 Creating link (NekoBin/Hastebin)...",
                 .reply "⚠️ **All Link Services Failed!** Sending file instead.",
                 .sendDoc html_code
                   (pyUnderscore ((truthy convo.details.title).getD "post") ++ ".html") ""])
        else if action = "get_caption" then
          (s, [.toast "", .sendText generated.caption])
        else if action = "post_channel" then
          match truthy (s.channels owner) with
          | none => (s, [.alert "Main channel not set."])
          | some channel_id =>
            (s, [.toast "🚀 Posting to main channel..."] ++
                (match generated.image with
                 | some img => [Act.channelPhoto channel_id (.buf img) generated.caption []]
                 | none => [Act.channelText channel_id generated.caption []]) ++
                [.editMarkupClear, .reply ("✅ Successfully posted to `" ++ channel_id ++ "`!")])
        else (s, [])

def handleCallback (env : Env) (e : CbEvent) (s : Store) : Store × List Act :=
  match e with
  | .sel clicker mt mid => selection_callback env clicker mt mid s
  | .addlink clicker yes owner => add_link_callback env clicker yes owner s
  | .finalAct clicker action owner => final_action_callback env clicker action owner s

/-! ## Text-message handlers

Each sub-handler mutates the looked-up convo dict in place; the embedding
returns the updated convo and the router writes it back. -/

/-- `manual_conversation_handler` (lines 1122-1156). -/
def manual_conversation_handler (raw : String) (convo : Convo) : Convo × List Act :=
  let text := pyStrip raw
  let state := convo.state
  if state = "manual_wait_title" then
    ({ convo with details := { convo.details with title := some text },
                  state := "manual_wait_year" },
     [.reply "✅ Title set. Now send the 4-digit **Year**."])
  else if state = "manual_wait_year" then
    if pyIsDigit text ∧ pyLen text = 4 then
      ({ convo with details := { convo.details with release_date := some (text ++ "-01-01") },
                    state := "manual_wait_overview" },
       [.reply "✅ Year set. Now send the **Plot/Overview**."])
    else (convo, [.reply "⚠️ Invalid year."])
  else if state = "manual_wait_overview" then
    ({ convo with details := { convo.details with overview := some text },
                  state := "manual_wait_genres" },
     [.reply "✅ Plot set. Send **Genres**, comma-separated."])
  else if state = "manual_wait_genres" then
    ({ convo with details := { convo.details with genres := (pySplit ',' text).map pyStrip },
                  state := "manual_wait_rating" },
     [.reply "✅ Genres set. What's the **Rating**? (e.g., `8.5`)."])
  else if state = "manual_wait_rating" then
    if pyUpper text = "N/A" then
      ({ convo with details := { convo.details with vote_average := some (.fin 0) },
                    state := "manual_wait_poster_url" },
       [.reply "✅ Rating set. Send the **Poster Image URL**."])
    else
      match pyFloat text with
      | some v =>
        ({ convo with details := { convo.details with vote_average := some (pyRound1 v) },
                      state := "manual_wait_poster_url" },
         [.reply "✅ Rating set. Send the **Poster Image URL**."])
      | none => (convo, [.reply "⚠️ Invalid rating."])
  else if state = "manual_wait_poster_url" then
    if pyStarts "http://" text ∨ pyStarts "https://" text then
      ({ convo with details := { convo.details with manual_poster_url := some text },
                    state := "wait_custom_language" },
       [.reply "✅ Poster URL set! Now, enter the language."])
    else (convo, [.reply "⚠️ Invalid URL."])
  else (convo, [])

/-- `language_conversation_handler` (lines 1106-1111). -/
def language_conversation_handler (raw : String) (convo : Convo) : Convo × List Act :=
  ({ convo with details := { convo.details with custom_language := some (pyStrip raw) },
                state := "wait_quality" },
   [.reply ("✅ Language set to: **" ++ pyStrip raw ++
      "**\n\n**💿 Now, please enter the Quality.**\nExample: `1080p | 720p WEB-DL`")])

/-- `quality_conversation_handler` (lines 1113-1120). -/
def quality_conversation_handler (user_id : Nat) (raw : String) (convo : Convo) :
    Convo × List Act :=
  ({ convo with details := { convo.details with custom_quality := some (pyStrip raw) },
                state := "ask_links" },
   [.replyKb "✅ Quality set.\n\n**🔗 Add Download Links for Blogger?**"
      ["addlink_yes_" ++ toString user_id, "addlink_no_" ++ toString user_id]])

/-- `link_conversation_handler` (lines 1088-1104).  In `wait_link_url` the
code indexes `convo["current_label"]`; the state is only ever entered with
that key set (a missing key would raise `KeyError`), modeled as a no-op. -/
def link_conversation_handler (user_id : Nat) (raw : String) (convo : Convo) :
    Convo × List Act :=
  let text := pyStrip raw
  if convo.state = "wait_link_label" then
    ({ convo with current_label := some text, state := "wait_link_url" },
     [.reply ("**🔗 Step 2/2: Link URL**\n\nNow send the URL for **'" ++ text ++ "'**.")])
  else if convo.state = "wait_link_url" then
    if ¬ (pyStarts "http://" text ∨ pyStarts "https://" text) then
      (convo, [.reply "⚠️ Invalid URL."])
    else
      match convo.current_label with
      | some lbl =>
        ({ convo with links := convo.links ++ [⟨lbl, text⟩], current_label := none,
                      state := "ask_another" },
         [.replyKb "✅ Link added! Add another?"
            ["addlink_yes_" ++ toString user_id, "addlink_no_" ++ toString user_id]])
      | none => (convo, [])
  else (convo, [])

/-- `filedl_title_handler` (lines 778-785). -/
def filedl_title_handler (raw : String) (convo : Convo) : Convo × List Act :=
  let title := pyStrip raw
  ({ convo with data_title := some title, state := "filedl_wait_btn_name" },
   [.reply ("✅ Title: **" ++ title ++ "**\n\n👉 Now enter **Button 1 Name** (e.g. `Download 720p`)")])

/-- `filedl_name_handler` (lines 787-823): `none` in the first component
models `user_conversations.pop(user_id, None)`. -/
def filedl_name_handler (env : Env) (raw : String) (convo : Convo) :
    Option Convo × List Act :=
  let text := pyStrip raw
  if (["DONE", "FINISH", "OK", "END", "SES"] : List String).contains (pyUpper text) then
    if convo.data_links = [] then (some convo, [.reply "❌ No buttons added."])
    else
      let final_html := generate_filedl_html (convo.data_title.getD "") convo.data_links
      match create_paste_link final_html env.https env.http with
      | some link =>
        (none, [.reply "⏳ Generating online link for your code...",
                .replyKb "✅ **Code Generated Successfully!**\n\n👇 Click below to View & Copy the code." [link]])
      | none =>
        (none, [.reply "⏳ Generating online link for your code...",
                .sendDoc final_html "filesdl_code.html" "⚠️ Link generation failed. Here is the file."])
  else
    (some { convo with temp_btn_name := some text, state := "filedl_wait_btn_url" },
     [.reply ("📝 Button: **" ++ text ++ "**\n🔗 Now send the **URL**.")])

/-- `filedl_url_handler` (lines 825-841).  `convo["temp_btn_name"]` is always
set on entry (KeyError otherwise), modeled as a no-op. -/
def filedl_url_handler (raw : String) (convo : Convo) : Convo × List Act :=
  let url := pyStrip raw
  if ¬ (pyStarts "http://" url ∨ pyStarts "https://" url) then
    (convo, [.reply "⚠️ Invalid URL. Must start with http/https."])
  else
    match convo.temp_btn_name with
    | some btn_name =>
      let convo2 : Convo :=
        { convo with data_links := convo.data_links ++ [⟨btn_name, url⟩],
                     temp_btn_name := none, state := "filedl_wait_btn_name" }
      (convo2, [.reply ("✅ **Button Added!** (Total: " ++ toString convo2.data_links.length ++
        ")\n\n👉 Enter **Next Button Name** OR type **DONE**.")])
    | none => (convo, [])

/-- `conversation_text_handler` (lines 1035-1072): the router for plain text
(non-command) private messages. -/
def conversation_text_handler (env : Env) (user_id : Nat) (raw : String)
    (s : Store) : Store × List Act :=
  match s.sessions user_id with
  | none => (s, [.reply "Please use `/post Movie Name` or `/post URL` to start."])
  | some convo =>
    let wr (v : Option Convo) (acts : List Act) : Store × List Act :=
      ({ s with sessions := updateSess s.sessions user_id v }, acts)
    let state := convo.state
    if state = "filedl_wait_title" then
      let r := filedl_title_handler raw convo
      wr (some r.1) r.2
    else if state = "filedl_wait_btn_name" then
      let r := filedl_name_handler env raw convo
      wr r.1 r.2
    else if state = "filedl_wait_btn_url" then
      let r := filedl_url_handler raw convo
      wr (some r.1) r.2
    else if state ≠ "" ∧ state ≠ "done" then
      if state = "manual_wait_title" ∨ state = "manual_wait_year" ∨
          state = "manual_wait_overview" ∨ state = "manual_wait_genres" ∨
          state = "manual_wait_rating" ∨ state = "manual_wait_poster_url" then
        let r := manual_conversation_handler raw convo
        wr (some r.1) r.2
      else if state = "wait_custom_language" then
        let r := language_conversation_handler raw convo
        wr (some r.1) r.2
      else if state = "wait_quality" then
        let r := quality_conversation_handler user_id raw convo
        wr (some r.1) r.2
      else if state = "wait_link_label" ∨ state = "wait_link_url" then
        let r := link_conversation_handler user_id raw convo
        wr (some r.1) r.2
      else (s, [.reply "I'm waiting for a specific input. Use /cancel to restart."])
    else (s, [])

/-- `cancel_command` (lines 741-747): `del user_conversations[uid]`. -/
def cancel_command (user_id : Nat) (s : Store) : Store × List Act :=
  match s.sessions user_id with
  | some _ =>
    ({ s with sessions := updateSess s.sessions user_id none },
     [.reply "✅ Operation successfully cancelled."])
  | none => (s, [.reply "👍 Nothing to cancel."])

/-- `manual_add_command` (lines 749-753). -/
def manual_add_command (user_id : Nat) (s : Store) : Store × List Act :=
  ({ s with sessions := (updateSess s.sessions user_id
      (some { state := "manual_wait_title", details := {}, links := [] })) },
   [.reply "🎬 **Manual Content Entry**\n\nFirst, please send the **Title**."])

/-- `filedl_command` (lines 766-776). -/
def filedl_command (user_id : Nat) (s : Store) : Store × List Act :=
  ({ s with sessions := (updateSess s.sessions user_id
      (some { state := "filedl_wait_title", data_links := [] })) },
   [.reply "📂 **FilesDL Post Creator**\n\nPlease send the **Title** of the post."])

/-- One inbound update of any kind the embedding covers. -/
inductive Ev where
  | msg (user_id : Nat) (text : String)
  | cb (e : CbEvent)
  | cancel (user_id : Nat)
  | manual (user_id : Nat)
  | filedl (user_id : Nat)
deriving DecidableEq, Repr

def step (env : Env) (e : Ev) (s : Store) : Store × List Act :=
  match e with
  | .msg uid text => conversation_text_handler env uid text s
  | .cb c => handleCallback env c s
  | .cancel uid => cancel_command uid s
  | .manual uid => manual_add_command uid s
  | .filedl uid => filedl_command uid s

def runEvents (env : Env) : List Ev → Store → Store
  | [], s => s
  | e :: r, s => runEvents env r (step env e s).1

/-! ## Specification-side definitions used by the claims -/

/-- A session that has already reached the terminal state: cached bundle,
state `"done"`, one completed generator run recorded in the ghost
counter. -/
def doneStore : Store :=
  { sessions := updateSess (fun _ => none) 7
      (some { state := "done", generated := some ⟨"cached caption", "cached html", none⟩ }),
    genCount := 1 }

/-- The DownloadLink url invariant: an accepted scheme prefix. -/
def urlOk (l : DownloadLink) : Prop :=
  pyStarts "http://" l.url = true ∨ pyStarts "https://" l.url = true

/-- Every link a session holds (both flows) satisfies the url invariant. -/
def linksOk (convo : Convo) : Prop :=
  (∀ l ∈ convo.links, urlOk l) ∧ (∀ l ∈ convo.data_links, urlOk l)

/-- The invariant over the whole session store. -/
def storeLinksOk (s : Store) : Prop :=
  ∀ uid convo, s.sessions uid = some convo → linksOk convo

/-- Source-order concatenation of a list of strings (the `+=` loops). -/
def strConcat : List String → String
  | [] => ""
  | x :: r => x ++ strConcat r

/-- The event sequence that collects one label/URL pair: the label text, the
URL text, then the owner's "Add Another Link" button. -/
def pairEvents (uid : Nat) (p : String × String) : List Ev :=
  [.msg uid p.1, .msg uid p.2, .cb (.addlink uid true uid)]

def pairsEvents (uid : Nat) (pairs : List (String × String)) : List Ev :=
  (pairs.map (pairEvents uid)).flatten

/-! ## Helper lemmas -/

theorem updateSess_eq (f : Nat → Option Convo) (uid : Nat) (v : Option Convo) :
    updateSess f uid v uid = v := by
  simp [updateSess]

theorem updateSess_ne (f : Nat → Option Convo) (uid : Nat) (v : Option Convo)
    (k : Nat) (hk : k ≠ uid) : updateSess f uid v k = f k := by
  simp [updateSess, hk]

/-- Behaviour of `generate_final_content` on a missing session. -/
theorem gfc_none (env : Env) (uid : Nat) (s : Store) (h : s.sessions uid = none) :
    generate_final_content env uid s = (s, []) := by
  unfold generate_final_content
  rw [h]

/-- The store `generate_final_content` leaves behind: one more completed
generator run, the freshly generated bundle cached on the session, the
state flipped to `"done"`. -/
theorem gfc_fst (env : Env) (uid : Nat) (s : Store) (convo : Convo)
    (h : s.sessions uid = some convo) :
    (generate_final_content env uid s).1 =
      { s with
        sessions := updateSess s.sessions uid (some { convo with
          generated := some ⟨generate_formatted_caption convo.details,
            generate_html convo.details convo.links uid s.adLinks,
            generate_image convo.details env⟩,
          state := "done" }),
        genCount := s.genCount + 1 } := by
  unfold generate_final_content
  rw [h]

/-- `final_action_callback` never writes the store. -/
theorem final_action_store (env : Env) (c : Nat) (a : String) (o : Nat) (s : Store) :
    (final_action_callback env c a o s).1 = s := by
  unfold final_action_callback
  repeat' (first | rfl | split | dsimp only)

/-! ## Claim C8 -/

/-- C8 counterexample.  The claim says the HTML upload retries over http if
and only if the https attempt fails outright — **not** when it merely
times out — so on a timed-out https attempt the result would be `none`,
and on an https attempt that completed as a failure (HTTP 500) a
successful http retry would yield the paste URL.  The code does the
opposite on both inputs: the `except Exception` handler catches the
timeout and retries (first conjunct: the http response is returned after
an https timeout), while a completed non-2xx https response falls through
to `return None` without ever attempting http (second conjunct). -/
theorem C8_counterexample :
    create_paste_link "x" PostOutcome.timeout (PostOutcome.resp 200 "https://dpaste.com/AbC") =
      some "https://dpaste.com/AbC" ∧
    create_paste_link "x" (PostOutcome.resp 500 "server error")
      (PostOutcome.resp 200 "https://dpaste.com/AbC") = none := by
  exact ⟨rfl, rfl⟩

/-- C8 (amended): `create_paste_link` attempts the paste service over https
first; a completed https response decides the result alone (2xx returns
its stripped body, any other status returns `none` with no retry); if and
only if the https attempt raises — timeouts included — it retries exactly
once over http, whose completed response then decides the same way; it
returns `none` when both attempts fail, and (being a total function of the
two outcomes, every exception caught) it never raises to the caller.
Empty content short-circuits to `none` with no attempt. -/
theorem C8_amended :
    ∀ (content : String) (httpsO httpO : PostOutcome),
      (content = "" → create_paste_link content httpsO httpO = none) ∧
      (content ≠ "" →
        (∀ status text, httpsO = .resp status text →
          create_paste_link content httpsO httpO =
            (if status = 201 ∨ status = 200 then some (pyStrip text) else none)) ∧
        ((httpsO = .timeout ∨ httpsO = .exc) →
          ((∀ status text, httpO = .resp status text →
            create_paste_link content httpsO httpO =
              (if status = 201 ∨ status = 200 then some (pyStrip text) else none)) ∧
          ((httpO = .timeout ∨ httpO = .exc) →
            create_paste_link content httpsO httpO = none)))) := by
  intro content httpsO httpO
  refine ⟨fun h => by simp [create_paste_link, h], fun h => ⟨?_, ?_⟩⟩
  · intro status text hresp
    subst hresp
    simp [create_paste_link, h]
  · intro hexc
    constructor
    · intro status text hresp
      subst hresp
      rcases hexc with h1 | h1 <;> subst h1 <;> simp [create_paste_link, h]
    · intro hexc2
      rcases hexc with h1 | h1 <;> rcases hexc2 with h2 | h2 <;>
        subst h1 <;> subst h2 <;> simp [create_paste_link, h]

/-! ## Claim C9 -/

/-- C9: a cancel event in any state deletes the user's session entirely from
the session store — the store afterwards maps that user to nothing, so no
session field survives (and no other user's entry changes) — and the next
plain-text event from that user takes the no-session branch of
`conversation_text_handler`: it is answered with the fresh-start prompt,
no state handler runs, and the store is untouched. -/
theorem C9_theorem :
    ∀ (s : Store) (user_id : Nat) (env : Env) (text : String),
      ((cancel_command user_id s).1.sessions =
        fun k => if k = user_id then none else s.sessions k) ∧
      conversation_text_handler env user_id text (cancel_command user_id s).1 =
        ((cancel_command user_id s).1,
         [.reply "Please use `/post Movie Name` or `/post URL` to start."]) := by
  intro s user_id env text
  have hsess : (cancel_command user_id s).1.sessions =
      fun k => if k = user_id then none else s.sessions k := by
    unfold cancel_command
    cases h : s.sessions user_id with
    | none =>
      funext k
      by_cases hk : k = user_id
      · subst hk; simp [h]
      · simp [hk]
    | some c =>
      funext k
      simp [updateSess]
  refine ⟨hsess, ?_⟩
  unfold conversation_text_handler
  rw [hsess]
  simp

/-! ## Claim C10 -/

/-- C10: in the file-download-post flow, a termination sentinel (`DONE`,
`FINISH`, `OK`, `END`, `SES`, case-insensitively, on the stripped text)
arriving while zero links have been collected generates no HTML and does
not delete the session: the handler answers with the error reply and
returns the session unchanged, still in the button-name-collection state.
With an empty links list the non-sentinel branch only records the pending
button name — so neither branch ever reaches `generate_filedl_html` or
delivers a paste link or file, i.e. generation in this flow only runs
with a non-empty links list.  (`asciiOnly` marks the fragment where the
embedded `upper`/`strip` agree with Python's.) -/
theorem C10_theorem :
    ∀ (env : Env) (raw : String) (convo : Convo),
      asciiOnly raw = true →
      convo.state = "filedl_wait_btn_name" →
      convo.data_links = [] →
      ((["DONE", "FINISH", "OK", "END", "SES"] : List String).contains
          (pyUpper (pyStrip raw)) = true →
        filedl_name_handler env raw convo = (some convo, [.reply "❌ No buttons added."])) ∧
      ((["DONE", "FINISH", "OK", "END", "SES"] : List String).contains
          (pyUpper (pyStrip raw)) = false →
        filedl_name_handler env raw convo =
          (some { convo with
                    temp_btn_name := some (pyStrip raw),
                    state := "filedl_wait_btn_url" },
           [.reply ("📝 Button: **" ++ pyStrip raw ++ "**\n🔗 Now send the **URL**.")])) := by
  intro env raw convo _ _ hlinks
  constructor
  · intro hsent
    unfold filedl_name_handler
    simp only [hsent, hlinks, if_true, if_pos]
  · intro hsent
    unfold filedl_name_handler
    simp only [hsent, Bool.false_eq_true, if_false]

/-- C10 witness: the theorem applied to the sentinel text `" done "` and a
concrete empty-links session. -/
theorem C10_witness :
    filedl_name_handler {} " done "
        { state := "filedl_wait_btn_name", data_title := some "T" } =
      (some { state := "filedl_wait_btn_name", data_title := some "T" },
       [.reply "❌ No buttons added."]) :=
  (C10_theorem {} " done " { state := "filedl_wait_btn_name", data_title := some "T" }
    (by decide) rfl rfl).1 (by decide)

/-! ## Claim C3 -/

/-- C3 counterexample.  The claim partitions **all** input strings: exactly
4 digits are stored and advance the state, every other input leaves the
session unchanged with no field written.  The input `" 2021 "` is not a
string consisting of exactly 4 digits (third conjunct), yet the handler —
which strips the message text before validating — stores
`release_date = "2021-01-01"` and advances to the overview state. -/
theorem C3_counterexample :
    (manual_conversation_handler " 2021 " { state := "manual_wait_year" }).1.state =
      "manual_wait_overview" ∧
    (manual_conversation_handler " 2021 " { state := "manual_wait_year" }).1.details.release_date =
      some "2021-01-01" ∧
    ¬ (pyIsDigit " 2021 " = true ∧ pyLen " 2021 " = 4) := by
  exact ⟨rfl, rfl, by decide⟩

/-- C3 (amended): in the `manual_wait_year` state the handler validates the
whitespace-stripped message text.  If the stripped text consists of
exactly 4 decimal digits it stores the normalized `YYYY-01-01` value in
the media record's `release_date` and advances the session to the
overview state; for every other input the session (state and record) is
returned unchanged and only the re-prompt is sent.  (`asciiOnly` marks
the fragment where `pyIsDigit`/`pyStrip` agree with Python's
`str.isdigit`/`str.strip`.) -/
theorem C3_amended :
    ∀ (text : String) (convo : Convo),
      convo.state = "manual_wait_year" →
      asciiOnly text = true →
      ((pyIsDigit (pyStrip text) = true ∧ pyLen (pyStrip text) = 4) →
        manual_conversation_handler text convo =
          ({ convo with
              details := { convo.details with release_date := some (pyStrip text ++ "-01-01") },
              state := "manual_wait_overview" },
           [.reply "✅ Year set. Now send the **Plot/Overview**."])) ∧
      (¬ (pyIsDigit (pyStrip text) = true ∧ pyLen (pyStrip text) = 4) →
        manual_conversation_handler text convo = (convo, [.reply "⚠️ Invalid year."])) := by
  intro text convo hstate _
  have hne : convo.state ≠ "manual_wait_title" := by rw [hstate]; decide
  constructor
  · intro hok
    unfold manual_conversation_handler
    simp only [hne, if_false, hstate, if_true, if_pos hok]
    simp
  · intro hbad
    unfold manual_conversation_handler
    simp only [hne, if_false, hstate, if_true, if_neg hbad]
    simp

/-- C3 witness: the amended theorem applied at the 4-digit input `"2021"`. -/
theorem C3_witness :
    (manual_conversation_handler "2021" { state := "manual_wait_year" }).1.details.release_date =
      some "2021-01-01" ∧
    (manual_conversation_handler "2021" { state := "manual_wait_year" }).1.state =
      "manual_wait_overview" := by
  have h := (C3_amended "2021" { state := "manual_wait_year" } rfl (by decide)).1
    ⟨by decide, by decide⟩
  rw [h]
  exact ⟨rfl, rfl⟩

/-! ## Claim C4 -/

/-- C4 counterexample.  The claim says every out-of-range input (outside
0.0–10.0) leaves the state unchanged and writes no rating.  The handler
performs no range check at all: on input `"15"` it stores `15.0` (an
out-of-range value, third conjunct) and advances the state.  The last
conjunct shows the accepted zero token is the literal `N/A`, not the
words "not applicable": that phrase is rejected with the re-prompt. -/
theorem C4_counterexample :
    (manual_conversation_handler "15" { state := "manual_wait_rating" }).1.details.vote_average =
      some (.fin 15) ∧
    (manual_conversation_handler "15" { state := "manual_wait_rating" }).1.state =
      "manual_wait_poster_url" ∧
    ¬ ((15 : ℚ) ≤ 10) ∧
    manual_conversation_handler "not applicable" { state := "manual_wait_rating" } =
      ({ state := "manual_wait_rating" }, [.reply "⚠️ Invalid rating."]) := by
  refine ⟨by decide, by decide, by norm_num, by decide⟩

/-- C4 (amended): in the `manual_wait_rating` state, on the stripped message
text: the case-insensitive `N/A` token is stored as the float `0.0` and
the state advances; every input that parses as a Python float — with no
range restriction whatsoever — is stored rounded to one decimal place
(ties to even) and the state advances; every input that fails to parse
(`ValueError`) leaves the session unchanged and sends the re-prompt.
(`asciiOnly` marks the fragment where the embedded `upper`/`strip`/
`float` agree with Python's.) -/
theorem C4_amended :
    ∀ (text : String) (convo : Convo),
      convo.state = "manual_wait_rating" →
      asciiOnly text = true →
      (pyUpper (pyStrip text) = "N/A" →
        manual_conversation_handler text convo =
          ({ convo with
              details := { convo.details with vote_average := some (.fin 0) },
              state := "manual_wait_poster_url" },
           [.reply "✅ Rating set. Send the **Poster Image URL**."])) ∧
      (pyUpper (pyStrip text) ≠ "N/A" →
        (∀ v, pyFloat (pyStrip text) = some v →
          manual_conversation_handler text convo =
            ({ convo with
                details := { convo.details with vote_average := some (pyRound1 v) },
                state := "manual_wait_poster_url" },
             [.reply "✅ Rating set. Send the **Poster Image URL**."])) ∧
        (pyFloat (pyStrip text) = none →
          manual_conversation_handler text convo = (convo, [.reply "⚠️ Invalid rating."]))) := by
  intro text convo hstate _
  unfold manual_conversation_handler
  rw [hstate]
  refine ⟨fun hna => ?_, fun hna => ⟨fun v hv => ?_, fun hv => ?_⟩⟩
  · simp [hna]
  · simp [hna, hv]
  · simp [hna, hv]

/-- C4 witness: the amended theorem applied at `"8.5"` (parsed and stored as
17/2 = 8.5) and at `"n/a"` (stored as 0.0). -/
theorem C4_witness :
    (manual_conversation_handler "8.5" { state := "manual_wait_rating" }).1.details.vote_average =
      some (.fin (17/2)) ∧
    (manual_conversation_handler "n/a" { state := "manual_wait_rating" }).1.details.vote_average =
      some (.fin 0) := by
  have h1 := ((C4_amended "8.5" { state := "manual_wait_rating" } rfl (by decide)).2
    (by decide)).1 (.fin (17/2)) (by decide)
  have h2 := (C4_amended "n/a" { state := "manual_wait_rating" } rfl (by decide)).1 (by decide)
  rw [h1, h2]
  exact ⟨by decide, rfl⟩

/-! ## Claim C5 -/

theorem pySplitAux_length (sep : Char) :
    ∀ (l acc : List Char), (pySplitAux sep acc l).length = l.count sep + 1 := by
  intro l
  induction l with
  | nil => intro acc; simp [pySplitAux]
  | cons c r ih =>
    intro acc
    by_cases h : c = sep
    · simp [pySplitAux, h, ih, List.count_cons]
    · simp [pySplitAux, h, ih, List.count_cons]

theorem pySplit_length (sep : Char) (s : String) :
    (pySplit sep s).length = s.data.count sep + 1 := by
  simp [pySplit, pySplitAux_length]

/-- C5 counterexample.  The claim says the stored genre list's length equals
the number of **non-empty** comma-delimited segments.  Python's
`split(",")` keeps empty segments and the handler stores one entry per
segment: on `"Drama,,Thriller"` it stores three entries — the middle one
the empty name — while the input has only two non-empty segments. -/
theorem C5_counterexample :
    (manual_conversation_handler "Drama,,Thriller" { state := "manual_wait_genres" }).1.details.genres =
      ["Drama", "", "Thriller"] ∧
    (manual_conversation_handler "Drama,,Thriller" { state := "manual_wait_genres" }).1.details.genres.length ≠
      ((pySplit ',' (pyStrip "Drama,,Thriller")).filter (fun seg => seg ≠ "")).length := by
  exact ⟨by decide, by decide⟩

/-- C5 (amended): in the `manual_wait_genres` state every input is accepted:
the stored genre list is the comma-split of the stripped text with each
segment stripped of surrounding whitespace, in segment order — so its
length equals the number of **all** comma-delimited segments (the comma
count plus one, empty segments included, each stored as an empty name) —
and the state advances to the rating state. -/
theorem C5_amended :
    ∀ (text : String) (convo : Convo),
      convo.state = "manual_wait_genres" →
      manual_conversation_handler text convo =
        ({ convo with
            details := { convo.details with genres := (pySplit ',' (pyStrip text)).map pyStrip },
            state := "manual_wait_rating" },
         [.reply "✅ Genres set. What's the **Rating**? (e.g., `8.5`)."]) ∧
      (manual_conversation_handler text convo).1.details.genres.length =
        (pyStrip text).data.count ',' + 1 := by
  intro text convo hstate
  unfold manual_conversation_handler
  rw [hstate]
  constructor
  · simp
  · simp [pySplit_length]

/-- C5 witness: the amended theorem applied at `" Drama , Thriller "`. -/
theorem C5_witness :
    (manual_conversation_handler " Drama , Thriller " { state := "manual_wait_genres" }).1.details.genres =
      ["Drama", "Thriller"] := by
  have h := (C5_amended " Drama , Thriller " { state := "manual_wait_genres" } rfl).1
  rw [h]
  decide

/-! ## Claim C2 -/

/-- C2: for every button-click event whose payload encodes a session-owner
id (`addlink_*_{uid}` and the `get_*`/`post_*` actions), a click by any
other identity is rejected outright: the handler returns the store
completely unchanged — no session mutated, no cached bundle dispatched —
and emits exactly the "This is not for you!" alert.  Moreover **no**
callback handler ever writes any session entry other than the clicking
user's own (the `sel_` payload encodes no owner, and `selection_callback`
only creates the clicker's own session), so the ownership check guards
every session a foreign click could reach. -/
theorem C2_theorem :
    ∀ (env : Env) (e : CbEvent) (s : Store),
      (∀ o, e.encodedOwner = some o → e.clicker ≠ o →
        handleCallback env e s = (s, [.alert "This is not for you!"])) ∧
      (∀ k, k ≠ e.clicker → (handleCallback env e s).1.sessions k = s.sessions k) := by
  intro env e s
  constructor
  · intro o ho hne
    cases e with
    | sel c mt mid => simp [CbEvent.encodedOwner] at ho
    | addlink c yes owner =>
      simp only [CbEvent.encodedOwner, Option.some.injEq] at ho
      subst ho
      simp only [CbEvent.clicker] at hne
      simp [handleCallback, add_link_callback, hne]
    | finalAct c action owner =>
      simp only [CbEvent.encodedOwner, Option.some.injEq] at ho
      subst ho
      simp only [CbEvent.clicker] at hne
      simp [handleCallback, final_action_callback, hne]
  · intro k hk
    cases e with
    | sel c mt mid =>
      simp only [CbEvent.clicker] at hk
      simp only [handleCallback, selection_callback]
      cases h : env.details_of mt mid with
      | none => rfl
      | some d => simp [updateSess, hk]
    | addlink c yes owner =>
      simp only [CbEvent.clicker] at hk
      by_cases hco : c ≠ owner
      · simp [handleCallback, add_link_callback, hco]
      · push_neg at hco
        subst hco
        cases hs : s.sessions c with
        | none => simp [handleCallback, add_link_callback, hs]
        | some convo =>
          cases yes with
          | true => simp [handleCallback, add_link_callback, hs, updateSess, hk]
          | false =>
            simp only [handleCallback, add_link_callback, ne_eq, not_true_eq_false,
              if_false, hs, Bool.false_eq_true]
            rw [gfc_fst env c s convo hs]
            simp [updateSess, hk]
    | finalAct c action owner =>
      rw [show handleCallback env (.finalAct c action owner) s =
            final_action_callback env c action owner s from rfl,
          final_action_store]

/-! ## Claim C1 -/

/-- C1 counterexample.  The claim says that once a session is terminal every
subsequent button event only dispatches the cached bundle and never
invokes a generator again.  `doneStore` holds exactly such a session for
user 7 (state `"done"`, bundle cached, one generator run); the owner then
replays the earlier `addlink_no_7` button (the "Done, Generate Post"
button of a previous prompt, still live on an older message).
`add_link_callback` checks only ownership and session existence — not the
done state — and calls `generate_final_content` again: the ghost
generator-run counter rises from 1 to 2. -/
theorem C1_counterexample :
    doneStore.genCount = 1 ∧
    (doneStore.sessions 7).map Convo.state = some "done" ∧
    (handleCallback {} (.addlink 7 false 7) doneStore).1.genCount = 2 := by
  exact ⟨rfl, rfl, rfl⟩

/-- C1 (amended): `generate_final_content` is the single generation site:
each invocation on an existing session runs the three artifact generators
once (the ghost counter rises by exactly one), stores their output —
caption, HTML, composited image — as the session's `generated` bundle and
marks the session state `"done"`.  Every `get_*`/`post_*` button event
(`final_action_callback`) leaves the store — sessions and generation
counter — completely unchanged, and dispatches only the cached bundle:
`get_caption` sends the cached caption and `get_html` delivers the cached
HTML (as a paste link of it, or the file fallback).  However, the done
flag is checked by no button handler, so a replayed add-link button can
re-enter generation (see the counterexample). -/
theorem C1_amended :
    (∀ (env : Env) (s : Store) (uid : Nat) (convo : Convo),
      s.sessions uid = some convo →
        (generate_final_content env uid s).1.genCount = s.genCount + 1 ∧
        (generate_final_content env uid s).1.sessions uid =
          some { convo with
            generated := some ⟨generate_formatted_caption convo.details,
              generate_html convo.details convo.links uid s.adLinks,
              generate_image convo.details env⟩,
            state := "done" }) ∧
    (∀ (env : Env) (s : Store) (clicker : Nat) (action : String) (owner : Nat),
      (handleCallback env (.finalAct clicker action owner) s).1 = s) ∧
    (∀ (env : Env) (s : Store) (owner : Nat) (convo : Convo) (b : Bundle),
      s.sessions owner = some convo → convo.generated = some b →
        (handleCallback env (.finalAct owner "get_caption" owner) s).2 =
          [.toast "", .sendText b.caption] ∧
        (handleCallback env (.finalAct owner "get_html" owner) s).2 =
          .toast "🔗 Creating link (NekoBin/Hastebin)..." ::
          (match create_paste_link b.html env.https env.http with
           | some link =>
             [Act.replyKb "✅ **Blogger Code Ready!**\n\n👇 Click below to View & Copy the code." [link]]
           | none =>
             [Act.reply "⚠️ **All Link Services Failed!** Sending file instead.",
              Act.sendDoc b.html
                (pyUnderscore ((truthy convo.details.title).getD "post") ++ ".html") ""])) := by
  refine ⟨?_, ?_, ?_⟩
  · intro env s uid convo h
    rw [gfc_fst env uid s convo h]
    exact ⟨rfl, by simp [updateSess]⟩
  · intro env s clicker action owner
    exact final_action_store env clicker action owner s
  · intro env s owner convo b hs hb
    constructor
    · simp [handleCallback, final_action_callback, hs, hb]
    · simp only [handleCallback, final_action_callback, ne_eq, not_true_eq_false,
        if_false, hs, hb]
      cases hp : create_paste_link b.html env.https env.http <;> simp [hp]

/-! ## Claim C6 -/

theorem storeLinksOk_write (s : Store) (uid : Nat) (v : Option Convo)
    (h : storeLinksOk s) (hv : ∀ c, v = some c → linksOk c) :
    storeLinksOk { s with sessions := updateSess s.sessions uid v } := by
  intro k c hkc
  dsimp at hkc
  by_cases hk : k = uid
  · subst hk
    rw [updateSess_eq] at hkc
    exact hv c hkc
  · rw [updateSess_ne _ _ _ _ hk] at hkc
    exact h k c hkc

theorem linksOk_manual (raw : String) (convo : Convo) (h : linksOk convo) :
    linksOk (manual_conversation_handler raw convo).1 := by
  unfold manual_conversation_handler
  repeat' (first | exact h | split | dsimp only)

theorem linksOk_language (raw : String) (convo : Convo) (h : linksOk convo) :
    linksOk (language_conversation_handler raw convo).1 := h

theorem linksOk_quality (uid : Nat) (raw : String) (convo : Convo) (h : linksOk convo) :
    linksOk (quality_conversation_handler uid raw convo).1 := h

theorem linksOk_link (uid : Nat) (raw : String) (convo : Convo) (h : linksOk convo) :
    linksOk (link_conversation_handler uid raw convo).1 := by
  unfold link_conversation_handler
  dsimp only
  split
  · exact h
  · split
    · split
      · exact h
      · rename_i hvalid
        split
        · constructor
          · intro l hl
            rcases List.mem_append.1 hl with hmem | hmem
            · exact h.1 l hmem
            · rw [List.mem_singleton.1 hmem]
              exact not_not.1 hvalid
          · exact h.2
        · exact h
    · exact h

theorem linksOk_fdtitle (raw : String) (convo : Convo) (h : linksOk convo) :
    linksOk (filedl_title_handler raw convo).1 := h

theorem linksOk_fdname (env : Env) (raw : String) (convo : Convo) (h : linksOk convo) :
    ∀ c, (filedl_name_handler env raw convo).1 = some c → linksOk c := by
  intro c hc
  unfold filedl_name_handler at hc
  dsimp only at hc
  split at hc
  · split at hc
    · injection hc with hc
      rw [← hc]
      exact h
    · split at hc <;> simp at hc
  · injection hc with hc
    rw [← hc]
    exact h

theorem linksOk_fdurl (raw : String) (convo : Convo) (h : linksOk convo) :
    linksOk (filedl_url_handler raw convo).1 := by
  unfold filedl_url_handler
  dsimp only
  split
  · exact h
  · rename_i hvalid
    split
    · constructor
      · exact h.1
      · intro l hl
        rcases List.mem_append.1 hl with hmem | hmem
        · exact h.2 l hmem
        · rw [List.mem_singleton.1 hmem]
          exact not_not.1 hvalid
    · exact h

theorem storeLinksOk_gfc (env : Env) (uid : Nat) (s : Store) (h : storeLinksOk s) :
    storeLinksOk (generate_final_content env uid s).1 := by
  cases hs : s.sessions uid with
  | none => rw [gfc_none env uid s hs]; exact h
  | some convo =>
    rw [gfc_fst env uid s convo hs]
    exact storeLinksOk_write s uid _ h
      (fun c hc => by injection hc with hc; rw [← hc]; exact h uid convo hs)

theorem storeLinksOk_step (env : Env) (e : Ev) (s : Store) (h : storeLinksOk s) :
    storeLinksOk (step env e s).1 := by
  cases e with
  | msg uid raw =>
    show storeLinksOk (conversation_text_handler env uid raw s).1
    cases hs : s.sessions uid with
    | none => simp only [conversation_text_handler, hs]; exact h
    | some convo =>
      have hc : linksOk convo := h uid convo hs
      simp only [conversation_text_handler, hs]
      repeat' split
      · exact storeLinksOk_write s uid _ h
          (fun c hcc => by injection hcc with hcc; rw [← hcc]; exact linksOk_fdtitle raw convo hc)
      · exact storeLinksOk_write s uid _ h (linksOk_fdname env raw convo hc)
      · exact storeLinksOk_write s uid _ h
          (fun c hcc => by injection hcc with hcc; rw [← hcc]; exact linksOk_fdurl raw convo hc)
      · exact storeLinksOk_write s uid _ h
          (fun c hcc => by injection hcc with hcc; rw [← hcc]; exact linksOk_manual raw convo hc)
      · exact storeLinksOk_write s uid _ h
          (fun c hcc => by injection hcc with hcc; rw [← hcc]; exact linksOk_language raw convo hc)
      · exact storeLinksOk_write s uid _ h
          (fun c hcc => by injection hcc with hcc; rw [← hcc]; exact linksOk_quality uid raw convo hc)
      · exact storeLinksOk_write s uid _ h
          (fun c hcc => by injection hcc with hcc; rw [← hcc]; exact linksOk_link uid raw convo hc)
      · exact h
      · exact h
  | cb c =>
    cases c with
    | sel cl mt mid =>
      show storeLinksOk (selection_callback env cl mt mid s).1
      unfold selection_callback
      cases hd : env.details_of mt mid with
      | none => exact h
      | some d =>
        exact storeLinksOk_write s cl _ h
          (fun c hcc => by
            injection hcc with hcc
            rw [← hcc]
            exact ⟨fun l hl => by simp at hl, fun l hl => by simp at hl⟩)
    | addlink cl yes owner =>
      show storeLinksOk (add_link_callback env cl yes owner s).1
      unfold add_link_callback
      split
      · exact h
      · split
        · exact h
        · rename_i convo hs
          split
          · exact storeLinksOk_write s owner _ h
              (fun c hcc => by injection hcc with hcc; rw [← hcc]; exact h owner convo hs)
          · exact storeLinksOk_gfc env owner s h
    | finalAct cl action owner =>
      show storeLinksOk (final_action_callback env cl action owner s).1
      rw [final_action_store]
      exact h
  | cancel uid =>
    show storeLinksOk (cancel_command uid s).1
    unfold cancel_command
    split
    · exact storeLinksOk_write s uid _ h (fun c hcc => by cases hcc)
    · exact h
  | manual uid =>
    exact storeLinksOk_write s uid _ h
      (fun c hcc => by
        injection hcc with hcc
        rw [← hcc]
        exact ⟨fun l hl => by simp at hl, fun l hl => by simp at hl⟩)
  | filedl uid =>
    exact storeLinksOk_write s uid _ h
      (fun c hcc => by
        injection hcc with hcc
        rw [← hcc]
        exact ⟨fun l hl => by simp at hl, fun l hl => by simp at hl⟩)

theorem foldl_append_eq {α : Type} (f : α → String) (l : List α) (acc : String) :
    l.foldl (fun a x => a ++ f x) acc = acc ++ strConcat (l.map f) := by
  induction l generalizing acc with
  | nil => simp [strConcat]
  | cons x r ih =>
    simp only [List.foldl, List.map, strConcat, ih]
    rw [String.append_assoc]

theorem download_blocks_eq (links : List DownloadLink) :
    download_blocks_html links = strConcat (links.map dlBlock) := by
  unfold download_blocks_html
  rw [foldl_append_eq, String.empty_append]

/-- C6: every DownloadLink stored in any session's links list (either flow)
has a url starting with `http://` or `https://`.  (1) and (2): each of the
two link-collection handlers, on a stripped input lacking both prefixes,
replies with its error and returns the session completely unchanged — no
link appended, no state change.  (3): the invariant "all stored link urls
carry an accepted prefix" is preserved by every event the system
processes (text message, any button click, cancel, `/manual`, `/filedl`),
so links are validated at collection and only at collection.  (4): the
HTML generator renders one block per stored link with no re-validation or
filtering of urls. -/
theorem C6_theorem :
    (∀ (user_id : Nat) (raw : String) (convo : Convo),
      convo.state = "wait_link_url" →
      ¬ (pyStarts "http://" (pyStrip raw) = true ∨ pyStarts "https://" (pyStrip raw) = true) →
      link_conversation_handler user_id raw convo = (convo, [.reply "⚠️ Invalid URL."])) ∧
    (∀ (raw : String) (convo : Convo),
      ¬ (pyStarts "http://" (pyStrip raw) = true ∨ pyStarts "https://" (pyStrip raw) = true) →
      filedl_url_handler raw convo = (convo, [.reply "⚠️ Invalid URL. Must start with http/https."])) ∧
    (∀ (env : Env) (e : Ev) (s : Store), storeLinksOk s → storeLinksOk (step env e s).1) ∧
    (∀ links, download_blocks_html links = strConcat (links.map dlBlock)) := by
  refine ⟨?_, ?_, storeLinksOk_step, download_blocks_eq⟩
  · intro user_id raw convo hstate hbad
    unfold link_conversation_handler
    rw [hstate]
    simp [hbad]
  · intro raw convo hbad
    unfold filedl_url_handler
    simp [hbad]

/-- C6 witness: the invariant-preservation part applied to a concrete store
(one session holding one `https` link) and a concrete text event, and the
rejection part applied to the prefix-less input `"ftp://x"`. -/
theorem C6_witness :
    filedl_url_handler "ftp://x" { state := "filedl_wait_btn_url" } =
      ({ state := "filedl_wait_btn_url" }, [.reply "⚠️ Invalid URL. Must start with http/https."]) :=
  C6_theorem.2.1 "ftp://x" { state := "filedl_wait_btn_url" } (by decide)

/-! ## Claim C7 -/

theorem runEvents_append (env : Env) (l1 l2 : List Ev) (s : Store) :
    runEvents env (l1 ++ l2) s = runEvents env l2 (runEvents env l1 s) := by
  induction l1 generalizing s with
  | nil => rfl
  | cons e r ih => simp [runEvents, ih]

/-- Collecting one valid label/URL pair from `wait_link_label` appends that
pair (stripped) at the tail of the links list and returns the session to
`wait_link_label` with no other session field changed. -/
theorem addPair_run (env : Env) (uid : Nat) (s : Store) (convo : Convo)
    (label url : String)
    (hs : s.sessions uid = some convo)
    (hst : convo.state = "wait_link_label")
    (hcl : convo.current_label = none)
    (hv : pyStarts "http://" (pyStrip url) = true ∨ pyStarts "https://" (pyStrip url) = true) :
    (runEvents env (pairEvents uid (label, url)) s).sessions uid =
      some { convo with links := convo.links ++ [⟨pyStrip label, pyStrip url⟩] } := by
  have hne1 : convo.state ≠ "filedl_wait_title" := by rw [hst]; decide
  have hne2 : convo.state ≠ "filedl_wait_btn_name" := by rw [hst]; decide
  have hne3 : convo.state ≠ "filedl_wait_btn_url" := by rw [hst]; decide
  have h1 : (step env (.msg uid label) s).1 =
      { s with sessions := updateSess s.sessions uid (some { convo with
          current_label := some (pyStrip label), state := "wait_link_url" }) } := by
    show (conversation_text_handler env uid label s).1 = _
    simp only [conversation_text_handler, hs, hne1, hne2, hne3, hst,
      link_conversation_handler]
    simp
  have h2 : (step env (.msg uid url)
        { s with sessions := updateSess s.sessions uid (some { convo with
            current_label := some (pyStrip label), state := "wait_link_url" }) }).1 =
      { s with sessions := updateSess s.sessions uid (some { convo with
          links := convo.links ++ [⟨pyStrip label, pyStrip url⟩],
          current_label := none, state := "ask_another" }) } := by
    show (conversation_text_handler env uid url _).1 = _
    simp only [conversation_text_handler, updateSess_eq, link_conversation_handler]
    simp [hv, updateSess]
    funext k
    by_cases hk : k = uid <;> simp [updateSess, hk]
  have h3 : (step env (.cb (.addlink uid true uid))
        { s with sessions := updateSess s.sessions uid (some { convo with
            links := convo.links ++ [⟨pyStrip label, pyStrip url⟩],
            current_label := none, state := "ask_another" }) }).1 =
      { s with sessions := updateSess s.sessions uid (some { convo with
          links := convo.links ++ [⟨pyStrip label, pyStrip url⟩],
          current_label := none, state := "wait_link_label" }) } := by
    show (add_link_callback env uid true uid _).1 = _
    simp only [add_link_callback, ne_eq, not_true_eq_false, if_false, updateSess_eq]
    simp [updateSess]
    funext k
    by_cases hk : k = uid <;> simp [updateSess, hk]
  show (runEvents env [.msg uid label, .msg uid url, .cb (.addlink uid true uid)] s).sessions uid = _
  simp only [runEvents]
  rw [h1, h2, h3]
  dsimp only
  rw [updateSess_eq]
  cases convo
  simp_all

/-- Feeding any sequence of label/URL pairs (urls valid) through the
collection loop appends exactly those pairs, stripped, in order. -/
theorem pairsRun (env : Env) (uid : Nat) :
    ∀ (pairs : List (String × String)) (s : Store) (convo : Convo),
      s.sessions uid = some convo →
      convo.state = "wait_link_label" →
      convo.current_label = none →
      (∀ p ∈ pairs,
        pyStarts "http://" (pyStrip p.2) = true ∨ pyStarts "https://" (pyStrip p.2) = true) →
      (runEvents env (pairsEvents uid pairs) s).sessions uid =
        some { convo with
          links := convo.links ++ pairs.map (fun p => ⟨pyStrip p.1, pyStrip p.2⟩) } := by
  intro pairs
  induction pairs with
  | nil =>
    intro s convo hs _ _ _
    simp only [pairsEvents, List.map, List.flatten, runEvents]
    rw [hs]
    cases convo
    simp
  | cons p rest ih =>
    intro s convo hs hst hcl hv
    have hsplit : pairsEvents uid (p :: rest) = pairEvents uid p ++ pairsEvents uid rest := by
      simp [pairsEvents]
    rw [hsplit, runEvents_append]
    have h1 := addPair_run env uid s convo p.1 p.2 hs hst hcl (hv p (by simp))
    have h2 := ih (runEvents env (pairEvents uid p) s)
      { convo with links := convo.links ++ [⟨pyStrip p.1, pyStrip p.2⟩] }
      h1 hst hcl (fun q hq => hv q (by simp [hq]))
    rw [h2]
    cases convo
    simp [List.append_assoc]

/-- C7: link collection preserves insertion order and the HTML generator
renders the list as-is.  (1) Feeding label/URL pairs A, B, C… in sequence
through the collection loop (label, url, "add another" button each time)
yields a links list that is exactly the previous list with those pairs
appended in the same order.  (2) The download-blocks section of the
generated HTML is the concatenation of one block per link in exactly the
links list's order.  (3) Each block carries that link's own url and label:
the block decomposes around `data-url="<url>" data-label="<label>"` (and
repeats the label as the button text). -/
theorem C7_theorem :
    (∀ (env : Env) (uid : Nat) (s : Store) (convo : Convo) (pairs : List (String × String)),
      s.sessions uid = some convo →
      convo.state = "wait_link_label" →
      convo.current_label = none →
      (∀ p ∈ pairs,
        pyStarts "http://" (pyStrip p.2) = true ∨ pyStarts "https://" (pyStrip p.2) = true) →
      (runEvents env (pairsEvents uid pairs) s).sessions uid =
        some { convo with
          links := convo.links ++ pairs.map (fun p => ⟨pyStrip p.1, pyStrip p.2⟩) }) ∧
    (∀ links, download_blocks_html links = strConcat (links.map dlBlock)) ∧
    (∀ l : DownloadLink, ∃ pre post : String,
      dlBlock l = pre ++ ("data-url=\"" ++ l.url ++ "\" data-label=\"" ++ l.label ++ "\"") ++ post) := by
  refine ⟨fun env uid s convo pairs hs hst hcl hv =>
    pairsRun env uid pairs s convo hs hst hcl hv, download_blocks_eq, ?_⟩
  intro l
  refine ⟨"
        <div class=\"dl-download-block\">
            <div class=\"dl-info-badge\">🚀 Fast Speed</div>
            <button class=\"dl-download-button\" style=\"background: " ++ dlGradient l.label ++ ";\" ",
    " data-click-count=\"0\">
                <span class=\"btn-icon\">📥</span>\x20
                <span class=\"btn-text\">" ++ l.label ++ "</span>
                <span class=\"btn-sub\">Click to Download</span>
            </button>
            <div class=\"dl-timer-display\">⏳ Please Wait...</div>
            <a href=\"#\" class=\"dl-real-download-link\" target=\"_blank\" rel=\"noopener noreferrer\">
                🚀 GET LINK NOW
            </a>
        </div>
        ", ?_⟩
  unfold dlBlock
  simp only [String.append_assoc]
  congr 1

end BloggerBot
